import Mathlib

/-!
Shallow embedding of the otpl-service-check repository.

The repository contains two implementations of the same service check:
* the Go core (`check.go`, `accumulator.go`, the discovery client file and
  `main.go`), and
* a legacy Python implementation (`src/unnamed/part_001`), which is the only
  implementation with the reconciliation (anti-flap) pass.

Pure data and control flow are embedded directly; network I/O (the discovery
fetch and the per-announcement health probe) is abstracted as explicit input
parameters / oracle functions, as are wall-clock durations (carried as
already-formatted text, since only the codes and structure of outcomes are
verified). Goroutine / process-pool fan-out is modelled as a map over the
matched announcements: the Go WaitGroup joins on every probe and each probe
adds exactly one result, and severity aggregation is proved order-independent
separately.
-/

namespace OtplCheck

/-- A metadata value from the discovery JSON; the Go code only distinguishes
string values from everything else (`v.(string)` type assertion), so all
non-string JSON values are collapsed into one constructor. -/
inductive MetaValue where
  | str (s : String)
  | nonString
deriving DecidableEq

/-- `tokenkey` constant: the fixed dedup-token metadata key. -/
def tokenkey : String := "server-token"

/-- The `Announcement` struct from the Go discovery client file. -/
structure Announcement where
  announcementId : String
  serviceType : String
  serviceUri : String
  environment : String
  metadata : List (String × MetaValue)
deriving DecidableEq

/-- `Announcement.serverToken` from the Go discovery client file: look up the
token key in the metadata; a missing key or a non-string value yields `""`. -/
def serverToken (a : Announcement) : String :=
  match a.metadata.lookup tokenkey with
  | some (MetaValue.str s) => s
  | some MetaValue.nonString => ""
  | none => ""

/-- Nagios severity statuses used by the Go implementation
(`nagios.StatusOK` and friends). -/
inductive Status where
  | ok
  | unknown
  | warn
  | crit
deriving DecidableEq

/-- `statusToOrd` from accumulator.go; order: ok, unknown, warn, crit.
(The Go `default: -1` branch is unreachable for the four constants and has no
counterpart on this four-constructor type.) -/
def statusToOrd : Status → Int
  | Status.ok => 0
  | Status.unknown => 1
  | Status.warn => 2
  | Status.crit => 3

/-- `worseOf` from accumulator.go. -/
def worseOf (a b : Status) : Status :=
  if statusToOrd b > statusToOrd a then b else a

/-- `nagios.PerfData` as used here: only the `instances` count is ever
attached (Go stores `float64(cnt)` of a nonnegative integer count). -/
structure PerfData where
  name : String
  value : Nat
deriving DecidableEq

/-- The `result` struct from accumulator.go. -/
structure GoResult where
  status : Status
  message : String
  perf : List PerfData
deriving DecidableEq

/-- `resultAccumulator`: worst status of a run, starting from
`nagios.StatusOK` (see `newAccumulator`) and folding `worseOf` over the added
results in arrival order (`resultAccumulator.add`). -/
def accWorst (rs : List GoResult) : Status :=
  rs.foldl (fun w r => worseOf w r.status) Status.ok

/-- The dedup counting loop of `check.checkQuota` (check.go): `seen` is the
set of tokens recorded so far, modelled as the list of inserted keys. -/
def quotaCountLoop : List Announcement → List String → Nat
  | [], _ => 0
  | ann :: rest, seen =>
    let tok := serverToken ann
    if (tok == "") || (tok != "" && !(seen.contains tok)) then
      quotaCountLoop rest (tok :: seen) + 1
    else
      quotaCountLoop rest seen

/-- The deduplicated instance count of `check.checkQuota`. -/
def quotaCount (anns : List Announcement) : Nat := quotaCountLoop anns []

/-- `okMsg` format string of check.go, applied. -/
def okMsgStr (cnt : Nat) (service : String) : String :=
  toString cnt ++ " instances of " ++ service ++ " found"

/-- `notOkMsg` format string of check.go, applied. -/
def notOkMsgStr (cnt : Nat) (service : String) (thresh : Nat) : String :=
  toString cnt ++ " instances of " ++ service ++ " found, expected at least " ++
    toString thresh

/-- The single quota outcome produced by `check.checkQuota` (check.go):
threshold classification of the deduplicated count, plus the `instances`
perf-data measurement appended to the result. Thresholds are validated
nonnegative by main.go (negative flags are clamped to 0), hence `Nat`. -/
def checkQuotaRes (warn crit : Nat) (service : String)
    (anns : List Announcement) : GoResult :=
  let cnt := quotaCount anns
  let res : GoResult :=
    if crit > 0 ∧ cnt < crit then
      { status := Status.crit, message := notOkMsgStr cnt service crit, perf := [] }
    else if warn > 0 ∧ cnt < warn then
      { status := Status.warn, message := notOkMsgStr cnt service warn, perf := [] }
    else
      { status := Status.ok, message := okMsgStr cnt service, perf := [] }
  { res with perf := res.perf ++ [{ name := ("instances"), value := cnt }] }

/-- What `check.fetchAnnouncement` hands back to `check.checkAnnouncement`:
either an error (URL parse failure, DNS error, connection refused, TLS
failure, timeout, body-read failure — all returned as a Go `error`), or a
response carrying the status code, duration (integer milliseconds) and the
resolved endpoint URL. -/
inductive ProbeResult where
  | transportError (errMsg : String)
  | response (statusCode : Nat) (durationMs : Nat) (endpointUrl : String)
deriving DecidableEq

/-- `statusFor` from check.go. The Go `switch code / 100` is modelled as
successive equality tests on `code / 100` in source order. -/
def statusFor (code : Nat) : Status :=
  if code / 100 = 2 then Status.ok
  else if code / 100 = 4 then Status.warn
  else Status.crit

/-- `formatMessage` from check.go, applied. -/
def formatMessageStr (statusCode durationMs : Nat) (endpointUrl : String) : String :=
  "---\nstatus code: " ++ toString statusCode ++ "\nduration: " ++
    toString durationMs ++ " ms\nendpoint: " ++ endpointUrl ++ "\n"

/-- `check.checkAnnouncement` (check.go): the network fetch is abstracted as
the `probe` oracle; an error yields a WARN result with the failure message,
a response is classified by `statusFor`. -/
def checkAnnouncementRes (probe : Announcement → ProbeResult)
    (ann : Announcement) : GoResult :=
  match probe ann with
  | ProbeResult.transportError err =>
    { status := Status.warn,
      message := ("failed to fetch announced endpoint ") ++ ann.serviceUri ++
        (": ") ++ err,
      perf := [] }
  | ProbeResult.response sc dur endp =>
    { status := statusFor sc, message := formatMessageStr sc dur endp, perf := [] }

/-- `check.run` (check.go): filter the discovery state by service type, emit
the single quota outcome, then (unless the healthcheck is skipped) one probe
outcome per matched announcement. The concurrent fan-out joined by the
WaitGroup is modelled as a map; arrival order into the accumulator is
nondeterministic in Go, which is covered by the order-independence of
`accWorst`. -/
def goRun (probe : Announcement → ProbeResult) (service : String)
    (warn crit : Nat) (skipHealthcheck : Bool)
    (discoveryState : List Announcement) : List GoResult :=
  let matching := discoveryState.filter (fun a => a.serviceType == service)
  [checkQuotaRes warn crit service matching] ++
    (if skipHealthcheck then [] else matching.map (checkAnnouncementRes probe))

/-! ## Legacy Python implementation (`src/unnamed/part_001`) -/

/-- An announcement as seen by the Python implementation: a JSON object in
which the `metadata` key may be absent. Python compares whole dicts when it
checks `res.announcement not in announcements` during reconciliation. -/
structure PyAnn where
  announcementId : String
  serviceType : String
  serviceUri : String
  environment : String
  metadata : Option (List (String × MetaValue))
deriving DecidableEq

/-- The token of an announcement as read by `Main.count_announcements`:
`metadata = ann.get("metadata", {})`, then `metadata[tokenkey]` if present. -/
def pyTokenOf (ann : PyAnn) : Option MetaValue :=
  match ann.metadata with
  | none => none
  | some md => md.lookup tokenkey

/-- The counting loop of `Main.count_announcements`: an announcement with no
token is always counted; a token is counted only on first occurrence. -/
def pyCountLoop : List PyAnn → List MetaValue → Nat
  | [], _ => 0
  | ann :: rest, seen =>
    match pyTokenOf ann with
    | none => pyCountLoop rest seen + 1
    | some tok =>
      if seen.contains tok then pyCountLoop rest seen
      else pyCountLoop rest (tok :: seen) + 1

/-- `Main.count_announcements`. -/
def pyCount (anns : List PyAnn) : Nat := pyCountLoop anns []

/-- `Result.codemap`: 2 is critical, 1 warning, 0 ok. Any other code would
raise a KeyError in Python; no such code is ever constructed. -/
def pyCodemap : Nat → String
  | 2 => "critical"
  | 1 => "warning"
  | 0 => "ok"
  | _ => ""

/-- The Python `Result` object: exit-code-valued severity (0 ok, 1 warning,
2 critical), formatted message, and the optional originating announcement. -/
structure PyResult where
  code : Nat
  message : String
  announcement : Option PyAnn
deriving DecidableEq

/-- `Result.__init__`: the message is prefixed with the topic and the state
name from the codemap. -/
def mkPyResult (code : Nat) (topic msg : String) (ann : Option PyAnn) : PyResult :=
  { code := code,
    message := topic ++ " " ++ pyCodemap code ++ ": " ++ msg,
    announcement := ann }

/-- `Result.create_with_uri`: append the check URI to the message first. -/
def mkPyResultWithUri (code : Nat) (topic uri msg : String)
    (ann : Option PyAnn) : PyResult :=
  mkPyResult code topic (msg ++ "\ncheck URI " ++ uri) ann

/-- The exception classes distinguished by `Main.handle_response`. -/
inductive PyExc where
  | connectTimeout
  | readTimeout
  | connectionError
  | otherExc (tb : String)
deriving DecidableEq

/-- The Python `Response` object handed from `EndpointChecker.check_endpoint`
to `Main.handle_response`. The float duration only ever reaches message text
(`"%.3fs"`), so it is carried as preformatted text. -/
structure PyResponse where
  statusCode : Nat
  body : String
  durationStr : String
  uri : String
  contentType : Option String
  announcement : Option PyAnn
  exc : Option PyExc
deriving DecidableEq

/-- The Python command-line configuration reaching `Main.run` after argparse
validation (`timeout` is likewise only used in message text here). -/
structure PyConfig where
  service : String
  critFewer : Nat
  warnFewer : Nat
  doHealthcheck : Bool
  timeoutStr : String

/-- Python prints `None` for a missing discovery backend header. -/
def backendStr : Option String → String
  | none => "None"
  | some b => b

/-- `Main.make_announcement_result`. -/
def makeAnnouncementResult (cfg : PyConfig) (code : Nat) (count : Nat)
    (backend : Option String) : PyResult :=
  mkPyResult code ("announcements")
    (toString count ++ "\ncrit./warn thresh.: " ++ toString cfg.critFewer ++
      "/" ++ toString cfg.warnFewer ++ "\ndisco backend: " ++ backendStr backend)
    none

/-- The quota classification in `Main.run`: the Python source has no explicit
`> 0` guards; `count < 0` is simply never true. -/
def pyQuotaCode (cfg : PyConfig) (count : Nat) : Nat :=
  if count < cfg.critFewer then 2
  else if count < cfg.warnFewer then 1
  else 0

/-- `Main.make_timeout_result`: both connect and read timeouts are critical
(code 2) in the legacy implementation. -/
def makeTimeoutResult (timeoutStr uri ty : String) (ann : Option PyAnn) : PyResult :=
  mkPyResultWithUri 2 (ty ++ " timeout") uri ("thresh. " ++ timeoutStr) ann

/-- `Main.make_response_result`. `seen` is `self.response_data_seen`, the set
of non-ok response bodies already rendered (deduplicates output across
results); the body parsing / truncation machinery (`Parser.parse`) only
produces message text and is abstracted as the `bodyParse` argument. -/
def makeResponseResult (bodyParse : Option String → String → String)
    (seen : List String) (code : Nat) (uri : String) (statusCode : Nat)
    (durationStr : String) (contentType : Option String) (text : String)
    (ann : Option PyAnn) : PyResult × List String :=
  let msg := toString statusCode ++ " from endpoint"
  if code != 0 then
    if seen.contains text then
      (mkPyResult code ("health") ((" <duplicate \x27") ++ uri ++ ("\x27>")) ann, seen)
    else
      let msg := msg ++ "\n" ++ bodyParse contentType text
      let seen := text :: seen
      let msg := msg ++ "\nduration " ++ durationStr ++ "s"
      (mkPyResultWithUri code ("health") uri msg ann, seen)
  else
    let msg := msg ++ "\nduration " ++ durationStr ++ "s"
    (mkPyResultWithUri code ("health") uri msg ann, seen)

/-- The status-code family classification of `Main.handle_response`:
`code = status // 100; result = 0 if code == 2 else 1 if code == 4 else 2`. -/
def pyStatusClass (status : Nat) : Nat :=
  let code := status / 100
  if code = 2 then 0
  else if code = 4 then 1
  else 2

/-- `Main.handle_response`: exceptions (transport-level probe failures) are
classified first — all with code 2 (critical) — otherwise the response is
classified by status-code family. Returns the result together with the
updated `response_data_seen` set. -/
def handleResponse (bodyParse : Option String → String → String)
    (timeoutStr : String) (seen : List String) (resp : PyResponse) :
    PyResult × List String :=
  match resp.exc with
  | some PyExc.connectTimeout =>
    (makeTimeoutResult timeoutStr resp.uri ("connect") resp.announcement, seen)
  | some PyExc.readTimeout =>
    (makeTimeoutResult timeoutStr resp.uri ("read") resp.announcement, seen)
  | some PyExc.connectionError =>
    (mkPyResultWithUri 2 ("health") resp.uri ("connection refused")
      resp.announcement, seen)
  | some (PyExc.otherExc tb) =>
    (mkPyResultWithUri 2 ("health") resp.uri (("unhandled exception\n") ++ tb)
      resp.announcement, seen)
  | none =>
    makeResponseResult bodyParse seen (pyStatusClass resp.statusCode) resp.uri
      resp.statusCode resp.durationStr resp.contentType resp.body
      resp.announcement

/-- The `for chk in checks: results.append(handle_response(chk))` loop of
`Main.run`, threading the `response_data_seen` set. -/
def handleAll (bodyParse : Option String → String → String)
    (timeoutStr : String) : List PyResponse → List String → List PyResult
  | [], _ => []
  | r :: rest, seen =>
    let p := handleResponse bodyParse timeoutStr seen r
    p.1 :: handleAll bodyParse timeoutStr rest p.2

/-- The sort key order of `Main.run`'s `sort_results`:
`sort(reverse=True, key=(code, message))`; `keyLt x r` says `x`'s key is
strictly below `r`'s. -/
def keyLt (x r : PyResult) : Prop :=
  x.code < r.code ∨ (x.code = r.code ∧ x.message < r.message)

instance (x r : PyResult) : Decidable (keyLt x r) := by
  unfold keyLt; infer_instance

/-- Insertion step of the descending sort. -/
def insertSorted (r : PyResult) : List PyResult → List PyResult
  | [] => [r]
  | x :: xs => if keyLt x r then r :: x :: xs else x :: insertSorted r xs

/-- `sort_results` in `Main.run`: worst results first (descending by
`(code, message)`); modelled as an insertion sort — the relative order of
equal keys is immaterial to the verified properties. -/
def sortResults (rs : List PyResult) : List PyResult :=
  rs.foldr insertSorted []

/-- `results[0].code`: the Python list is never empty at the points where it
is indexed (the quota result is always present); `0` is a dummy for `[]`. -/
def headCode (rs : List PyResult) : Nat :=
  match rs with
  | [] => 0
  | r :: _ => r.code

/-- The downgrade loop of the reconciliation pass in `Main.run`: scan the
(worst-first sorted) results, stopping at the first non-critical one; skip
results with no announcement; downgrade to code 1 and annotate any critical
result whose announcement is missing from the fresh fetch, counting the
downgrades. -/
def downgradePass (fresh : List PyAnn) : List PyResult → List PyResult × Nat
  | [] => ([], 0)
  | res :: rest =>
    if res.code != 2 then (res :: rest, 0)
    else
      match res.announcement with
      | none =>
        let p := downgradePass fresh rest
        (res :: p.1, p.2)
      | some a =>
        if fresh.contains a then
          let p := downgradePass fresh rest
          (res :: p.1, p.2)
        else
          let p := downgradePass fresh rest
          ({ res with code := 1, message := res.message ++ "\n(downgraded)" } :: p.1,
            p.2 + 1)

/-- The summary message appended when any downgrade occurred. -/
def downgradeMsg (downgraded : Nat) (backend : Option String) : String :=
  ("downgraded ") ++ toString downgraded ++ (" critical result") ++
    (if downgraded > 1 then "s" else "") ++
    ("\ndiffering disco backend: ") ++ backendStr backend

/-- The reconciliation block of `Main.run` (entered only when the worst
result is critical and the healthcheck ran): on a failed re-fetch append one
warning diagnostic and leave everything else untouched; on success run the
downgrade loop against the (service-filtered) fresh announcement list and,
if anything was downgraded, append the summary and re-sort. -/
def reconcile (cfg : PyConfig)
    (fetch2 : Except String (Option String × List PyAnn))
    (results : List PyResult) : List PyResult :=
  match fetch2 with
  | Except.error tb =>
    results ++ [mkPyResult 1 ("announcements") (("failed to re-check\n") ++ tb) none]
  | Except.ok (backend2, state2) =>
    let fresh := state2.filter (fun a => a.serviceType == cfg.service)
    let p := downgradePass fresh results
    if p.2 > 0 then
      sortResults (p.1 ++ [mkPyResult 1 ("results") (downgradeMsg p.2 backend2) none])
    else p.1

/-- `Main.run` end to end, returning the process exit code. `fetch1` and
`fetch2` are the outcomes of the two `get_announcements` calls (`none` /
`Except.error` meaning the call raised; `get_announcements` filters by
service type, which is applied here); `probe` is the outcome of
`EndpointChecker.check_endpoint` per announcement (pool fan-out modelled in
announcement order). -/
def pyRun (bodyParse : Option String → String → String) (cfg : PyConfig)
    (fetch1 : Option (Option String × List PyAnn))
    (fetch2 : Except String (Option String × List PyAnn))
    (probe : PyAnn → PyResponse) : Nat :=
  match fetch1 with
  | none => 3
  | some (backend, state1) =>
    let announcements := state1.filter (fun a => a.serviceType == cfg.service)
    let count := pyCount announcements
    let results := [makeAnnouncementResult cfg (pyQuotaCode cfg count) count backend]
    let results :=
      if cfg.doHealthcheck then
        results ++ handleAll bodyParse cfg.timeoutStr (announcements.map probe) []
      else results
    let results := sortResults results
    let results :=
      if headCode results == 2 && cfg.doHealthcheck then reconcile cfg fetch2 results
      else results
    headCode results

/-! ## Characterization helpers and concrete inputs used by the theorems -/

/-- The downgrade condition of the reconciliation loop, as a predicate on a
single result: critical, tied to an announcement, and that announcement is
missing from the fresh fetch. -/
def needsDowngrade (fresh : List PyAnn) (r : PyResult) : Bool :=
  r.code == 2 &&
    (match r.announcement with
     | none => false
     | some a => !(fresh.contains a))

/-- The effect of one downgrade: code 2 becomes 1 and the annotation is
appended to the message. -/
def dgResult (r : PyResult) : PyResult :=
  { r with code := 1, message := r.message ++ "\n(downgraded)" }

/-- Worst (maximum) code over a Python result list; equals `results[0].code`
after the worst-first sort. -/
def maxCode (rs : List PyResult) : Nat :=
  rs.foldr (fun r m => max r.code m) 0

/-- Correspondence between the Go severity constants and the Python
severity/exit codes (ok 0, warning 1, critical 2, unknown 3). -/
def statusToPyCode : Status → Nat
  | Status.ok => 0
  | Status.warn => 1
  | Status.crit => 2
  | Status.unknown => 3

/-- A trivial body parser used for concrete runs (body parsing only produces
message text). -/
def idParse : Option String → String → String := fun _ t => t

/-- Concrete announcement (Go form) used in concrete runs. -/
def annG : Announcement :=
  { announcementId := "ann1", serviceType := "foo",
    serviceUri := "http://a.example", environment := "test", metadata := [] }

/-- The same concrete announcement in Python form. -/
def annP : PyAnn :=
  { announcementId := "ann1", serviceType := "foo",
    serviceUri := "http://a.example", environment := "test", metadata := none }

/-- A probe oracle for the Go core that always fails at the transport level. -/
def goProbeCE : Announcement → ProbeResult :=
  fun _ => ProbeResult.transportError ("connection refused")

/-- The corresponding probe oracle for the Python implementation: the request
raises `requests.exceptions.ConnectionError`. -/
def pyProbeCE : PyAnn → PyResponse :=
  fun a =>
    { statusCode := 0, body := "", durationStr := "0.000",
      uri := "http://a.example/health", contentType := none,
      announcement := some a, exc := some PyExc.connectionError }

/-- Concrete Python configuration: service `foo`, both thresholds disabled,
healthcheck enabled. -/
def cfgCE : PyConfig :=
  { service := "foo", critFewer := 0, warnFewer := 0, doHealthcheck := true,
    timeoutStr := "5.000" }

/-- A concrete transport-failed response (connection refused). -/
def connRefusedResp : PyResponse :=
  { statusCode := 0, body := "", durationStr := "0.000",
    uri := "http://a.example/health", contentType := none,
    announcement := none, exc := some PyExc.connectionError }

/-- Concrete announcements carrying dedup tokens `"a"`, `"a"`, and none. -/
def tokA1 : Announcement :=
  { announcementId := "1", serviceType := "s", serviceUri := "u",
    environment := "e", metadata := [(tokenkey, MetaValue.str "a")] }

def tokA2 : Announcement := { tokA1 with announcementId := "2" }

def noTokA3 : Announcement :=
  { announcementId := "3", serviceType := "s", serviceUri := "u",
    environment := "e", metadata := [] }

/-- The same three announcements in Python form. -/
def tokP1 : PyAnn :=
  { announcementId := "1", serviceType := "s", serviceUri := "u",
    environment := "e", metadata := some [(tokenkey, MetaValue.str "a")] }

def tokP2 : PyAnn := { tokP1 with announcementId := "2" }

def noTokP3 : PyAnn :=
  { announcementId := "3", serviceType := "s", serviceUri := "u",
    environment := "e", metadata := none }

/-- An announcement whose dedup-token metadata value is not a string. -/
def nonStrA : Announcement :=
  { announcementId := "n", serviceType := "s", serviceUri := "u",
    environment := "e", metadata := [(tokenkey, MetaValue.nonString)] }

/-- Concrete Go results for the aggregation-order example. -/
def rWarnEx : GoResult := { status := Status.warn, message := "w", perf := [] }

def rCritEx : GoResult := { status := Status.crit, message := "c", perf := [] }

/-- Concrete reconciliation scenario: a critical health result tied to an
announcement that the fresh fetch no longer lists, plus an ok quota result. -/
def pyAnnW : PyAnn :=
  { announcementId := "w1", serviceType := "svc",
    serviceUri := "http://w.example", environment := "e", metadata := none }

def resCritW : PyResult :=
  { code := 2, message := "health critical: boom", announcement := some pyAnnW }

def resOkW : PyResult :=
  { code := 0, message := "announcements ok: 1", announcement := none }

def cfgW : PyConfig :=
  { service := "svc", critFewer := 1, warnFewer := 1, doHealthcheck := true,
    timeoutStr := "5.000" }

/-! ## Theorems -/

theorem worseOf_comm : ∀ a b, worseOf a b = worseOf b a := by
  intro a b; cases a <;> cases b <;> decide

theorem worseOf_assoc :
    ∀ a b c, worseOf (worseOf a b) c = worseOf a (worseOf b c) := by
  intro a b c; cases a <;> cases b <;> cases c <;> decide

theorem worseOf_ord_max :
    ∀ a b, statusToOrd (worseOf a b) = max (statusToOrd a) (statusToOrd b) := by
  intro a b; cases a <;> cases b <;> decide

theorem worseOf_right_comm :
    ∀ z x y, worseOf (worseOf z x) y = worseOf (worseOf z y) x := by
  intro z x y; cases z <;> cases x <;> cases y <;> decide

/-- C2: severity aggregation is the maximum over the total order
OK < UNKNOWN < WARN < CRIT (`worseOf` realizes `max` of `statusToOrd`), is
commutative and associative, and the accumulator fold over any permutation
of the same outcomes — from any starting worst status — yields the same
final worst severity. -/
theorem c2_aggregation_is_order_independent_max (a b c s : Status)
    (l1 l2 : List GoResult) (hperm : List.Perm l1 l2) :
    statusToOrd (worseOf a b) = max (statusToOrd a) (statusToOrd b) ∧
    worseOf a b = worseOf b a ∧
    worseOf (worseOf a b) c = worseOf a (worseOf b c) ∧
    List.foldl (fun w r => worseOf w r.status) s l1 =
      List.foldl (fun w r => worseOf w r.status) s l2 ∧
    accWorst l1 = accWorst l2 := by
  refine ⟨worseOf_ord_max a b, worseOf_comm a b, worseOf_assoc a b c, ?_, ?_⟩
  · exact hperm.foldl_eq'
      (fun x _ y _ z => worseOf_right_comm z x.status y.status) s
  · exact hperm.foldl_eq'
      (fun x _ y _ z => worseOf_right_comm z x.status y.status) Status.ok

/-- Witness for C2 at a concrete permutation of two outcomes. -/
theorem c2_aggregation_witness :
    statusToOrd (worseOf Status.ok Status.crit) =
      max (statusToOrd Status.ok) (statusToOrd Status.crit) ∧
    worseOf Status.ok Status.crit = worseOf Status.crit Status.ok ∧
    worseOf (worseOf Status.ok Status.crit) Status.warn =
      worseOf Status.ok (worseOf Status.crit Status.warn) ∧
    List.foldl (fun w r => worseOf w r.status) Status.ok [rWarnEx, rCritEx] =
      List.foldl (fun w r => worseOf w r.status) Status.ok [rCritEx, rWarnEx] ∧
    accWorst [rWarnEx, rCritEx] = accWorst [rCritEx, rWarnEx] :=
  c2_aggregation_is_order_independent_max Status.ok Status.crit Status.warn
    Status.ok [rWarnEx, rCritEx] [rCritEx, rWarnEx] (by decide)

/-- C6: for a successful probe response the outcome severity depends only on
the status-code family — 2xx is OK, 4xx is WARN, everything else (3xx, 5xx,
other) is CRIT — in the Go core (`statusFor`) and in the legacy
implementation (`Main.handle_response`), including the spec's examples. -/
theorem c6_status_code_family_classification :
    (∀ code : Nat, statusFor code =
      if 200 ≤ code ∧ code ≤ 299 then Status.ok
      else if 400 ≤ code ∧ code ≤ 499 then Status.warn
      else Status.crit) ∧
    (∀ status : Nat, pyStatusClass status =
      if 200 ≤ status ∧ status ≤ 299 then 0
      else if 400 ≤ status ∧ status ≤ 499 then 1
      else 2) ∧
    statusFor 200 = Status.ok ∧ statusFor 404 = Status.warn ∧
    statusFor 500 = Status.crit ∧ statusFor 301 = Status.crit := by
  refine ⟨?_, ?_, by decide, by decide, by decide, by decide⟩
  · intro code
    unfold statusFor
    by_cases h2 : code / 100 = 2
    · have hr : 200 ≤ code ∧ code ≤ 299 := by omega
      simp [h2, hr]
    · by_cases h4 : code / 100 = 4
      · have hr : 400 ≤ code ∧ code ≤ 499 := by omega
        have hn : ¬(200 ≤ code ∧ code ≤ 299) := by omega
        simp [h2, h4, hr, hn]
      · have hn2 : ¬(200 ≤ code ∧ code ≤ 299) := by omega
        have hn4 : ¬(400 ≤ code ∧ code ≤ 499) := by omega
        simp [h2, h4, hn2, hn4]
  · intro status
    unfold pyStatusClass
    by_cases h2 : status / 100 = 2
    · have hr : 200 ≤ status ∧ status ≤ 299 := by omega
      simp [h2, hr]
    · by_cases h4 : status / 100 = 4
      · have hr : 400 ≤ status ∧ status ≤ 499 := by omega
        have hn : ¬(200 ≤ status ∧ status ≤ 299) := by omega
        simp [h2, h4, hr, hn]
      · have hn2 : ¬(200 ≤ status ∧ status ≤ 299) := by omega
        have hn4 : ¬(400 ≤ status ∧ status ≤ 499) := by omega
        simp [h2, h4, hn2, hn4]

/-- C5: the quota outcome's severity is CRIT iff `crit > 0` and the
deduplicated count is below `crit`, else WARN iff `warn > 0` and the count is
below `warn`, else OK — a threshold of 0 disables that level — in the Go
core (`checkQuota`) and in the legacy implementation (whose source omits the
`> 0` guards because `count < 0` is vacuous for a nonnegative count). -/
theorem c5_quota_threshold_classification (warn crit : Nat) (service : String)
    (anns : List Announcement) (cfg : PyConfig) (cnt : Nat) :
    (checkQuotaRes warn crit service anns).status =
      (if crit > 0 ∧ quotaCount anns < crit then Status.crit
       else if warn > 0 ∧ quotaCount anns < warn then Status.warn
       else Status.ok) ∧
    pyQuotaCode cfg cnt =
      (if cfg.critFewer > 0 ∧ cnt < cfg.critFewer then 2
       else if cfg.warnFewer > 0 ∧ cnt < cfg.warnFewer then 1
       else 0) := by
  constructor
  · unfold checkQuotaRes
    dsimp only
    split_ifs <;> rfl
  · unfold pyQuotaCode
    split_ifs <;> omega

/-- C7: if the reconciliation re-fetch fails, the results list is exactly the
old list plus one appended diagnostic: the set of CRIT outcomes is unchanged
(no downgrade), and exactly one additional WARN (code 1) outcome describing
the reconciliation failure is appended. -/
theorem c7_reconciliation_failsafe (cfg : PyConfig) (tb : String)
    (results : List PyResult) :
    reconcile cfg (Except.error tb) results =
      results ++
        [mkPyResult 1 ("announcements") (("failed to re-check\n") ++ tb) none] ∧
    (reconcile cfg (Except.error tb) results).filter (fun r => r.code == 2) =
      results.filter (fun r => r.code == 2) ∧
    ((reconcile cfg (Except.error tb) results).filter
        (fun r => r.code == 1)).length =
      (results.filter (fun r => r.code == 1)).length + 1 := by
  refine ⟨rfl, ?_, ?_⟩
  · rw [show reconcile cfg (Except.error tb) results = results ++
        [mkPyResult 1 ("announcements") (("failed to re-check\n") ++ tb) none]
        from rfl]
    rw [List.filter_append]
    simp [mkPyResult]
  · rw [show reconcile cfg (Except.error tb) results = results ++
        [mkPyResult 1 ("announcements") (("failed to re-check\n") ++ tb) none]
        from rfl]
    rw [List.filter_append]
    simp [mkPyResult]

theorem checkQuotaRes_perf (warn crit : Nat) (service : String)
    (anns : List Announcement) :
    (checkQuotaRes warn crit service anns).perf =
      [{ name := ("instances"), value := quotaCount anns }] := by
  unfold checkQuotaRes
  dsimp only
  split_ifs <;> rfl

theorem checkAnnouncementRes_perf (probe : Announcement → ProbeResult)
    (ann : Announcement) : (checkAnnouncementRes probe ann).perf = [] := by
  unfold checkAnnouncementRes
  cases probe ann <;> rfl

/-- C8: every run's outcome list is the single quota outcome followed, when
probing is enabled, by exactly one probe outcome per matched announcement —
none dropped, regardless of probe success or failure (the probe oracle is
arbitrary). -/
theorem c8_one_quota_one_probe_outcome_each (probe : Announcement → ProbeResult)
    (service : String) (warn crit : Nat) (skip : Bool)
    (state : List Announcement) :
    (goRun probe service warn crit skip state).length =
      1 + (if skip then 0
           else (state.filter (fun a => a.serviceType == service)).length) ∧
    ((goRun probe service warn crit skip state).filter
        (fun r => !r.perf.isEmpty)).length = 1 ∧
    (goRun probe service warn crit skip state).tail =
      (if skip then []
       else (state.filter (fun a => a.serviceType == service)).map
         (checkAnnouncementRes probe)) := by
  refine ⟨?_, ?_, ?_⟩
  · unfold goRun
    cases skip <;> simp <;> omega
  · unfold goRun
    rw [List.filter_append]
    have hq : List.filter (fun r => !r.perf.isEmpty)
        [checkQuotaRes warn crit service
          (state.filter (fun a => a.serviceType == service))] =
        [checkQuotaRes warn crit service
          (state.filter (fun a => a.serviceType == service))] := by
      simp [List.filter_cons, checkQuotaRes_perf]
    have hrest : (if skip then ([] : List GoResult)
        else (state.filter (fun a => a.serviceType == service)).map
          (checkAnnouncementRes probe)).filter (fun r => !r.perf.isEmpty) = [] := by
      cases skip
      · rw [if_neg (by simp)]
        rw [List.filter_eq_nil_iff]
        intro r hr
        rcases List.mem_map.mp hr with ⟨a, _, rfl⟩
        rw [checkAnnouncementRes_perf]
        simp
      · rfl
    rw [hq, hrest]
    simp
  · cases skip <;> rfl

/-- C3 counterexample: in the legacy implementation a transport-level probe
failure (here: connection refused) produces an outcome with code 2, which
`Result.codemap` names `critical` — not the WARN the claim states for every
health probe (the claim's cited sources include `Main.handle_response`). -/
theorem c3_counterexample_legacy_transport_is_critical :
    (handleResponse idParse ("5.000") [] connRefusedResp).1.code = 2 ∧
    pyCodemap (handleResponse idParse ("5.000") [] connRefusedResp).1.code =
      ("critical") := ⟨rfl, rfl⟩

/-- C3 amended: in the Go core every transport-level probe failure (DNS
error, connection refused, TLS failure, timeout — any probe error) yields a
WARN outcome with a message describing the failure; the legacy Python
implementation instead classifies every transport-level failure as critical
(code 2). -/
theorem c3_transport_failure_go_warn_legacy_crit
    (probe : Announcement → ProbeResult) (ann : Announcement) (err : String)
    (hprobe : probe ann = ProbeResult.transportError err)
    (bodyParse : Option String → String → String) (timeoutStr : String)
    (seen : List String) (resp : PyResponse) (e : PyExc)
    (hexc : resp.exc = some e) :
    (checkAnnouncementRes probe ann).status = Status.warn ∧
    (checkAnnouncementRes probe ann).message =
      ("failed to fetch announced endpoint ") ++ ann.serviceUri ++ (": ") ++ err ∧
    (handleResponse bodyParse timeoutStr seen resp).1.code = 2 := by
  refine ⟨?_, ?_, ?_⟩
  · unfold checkAnnouncementRes
    rw [hprobe]
  · unfold checkAnnouncementRes
    rw [hprobe]
  · unfold handleResponse
    rw [hexc]
    cases e <;> rfl

/-- Witness for the amended C3 at a concrete failing probe. -/
theorem c3_transport_failure_witness :
    (checkAnnouncementRes goProbeCE annG).status = Status.warn ∧
    (checkAnnouncementRes goProbeCE annG).message =
      ("failed to fetch announced endpoint ") ++ annG.serviceUri ++ (": ") ++
        ("connection refused") ∧
    (handleResponse idParse ("5.000") [] connRefusedResp).1.code = 2 :=
  c3_transport_failure_go_warn_legacy_crit goProbeCE annG ("connection refused")
    rfl idParse ("5.000") [] connRefusedResp PyExc.connectionError rfl

/-- C9 counterexample: on the same input — one announcement of the checked
service, both thresholds disabled, a probe that fails at the transport level,
and a reconciliation fetch returning the unchanged list — the Go core's final
severity is WARN (Python code 1) while the legacy implementation exits with
code 2 (CRITICAL): the legacy implementation is not a behavioral duplicate. -/
theorem c9_counterexample_final_severity_differs :
    statusToPyCode (accWorst (goRun goProbeCE ("foo") 0 0 false [annG])) = 1 ∧
    pyRun idParse cfgCE (some (none, [annP])) (Except.ok (none, [annP]))
      pyProbeCE = 2 := ⟨rfl, rfl⟩

/-- C9 amended: the two implementations agree on the quota threshold
classification (for equal deduplicated counts) and on the status-code family
classification of successful probes, but they are not full behavioral
duplicates — they diverge on transport-level probe failures (WARN in the Go
core, CRIT in the legacy implementation; see the C3 theorems). -/
theorem c9_partial_agreement (warn crit : Nat) (service : String)
    (anns : List Announcement) (code : Nat) :
    statusToPyCode (checkQuotaRes warn crit service anns).status =
      pyQuotaCode { service := service, critFewer := crit, warnFewer := warn,
                    doHealthcheck := true, timeoutStr := "" }
        (quotaCount anns) ∧
    statusToPyCode (statusFor code) = pyStatusClass code := by
  constructor
  · unfold checkQuotaRes pyQuotaCode
    dsimp only
    split_ifs <;> simp [statusToPyCode] <;> omega
  · unfold statusFor pyStatusClass
    dsimp only
    split_ifs <;> simp [statusToPyCode]

theorem quotaCountLoop_eq (anns : List Announcement) :
    ∀ seen : List String,
      quotaCountLoop anns seen =
        (anns.filter (fun a => serverToken a == "")).length +
          (((anns.map serverToken).filter (fun t => !(t == ""))).toFinset \
            seen.toFinset).card := by
  induction anns with
  | nil => intro seen; simp [quotaCountLoop]
  | cons a rest ih =>
    intro seen
    by_cases htok : serverToken a = ""
    · have hcond : ((serverToken a == "") ||
          ((serverToken a != "") && !(seen.contains (serverToken a)))) = true := by
        rw [htok]
        simp
      have key : quotaCountLoop (a :: rest) seen =
          quotaCountLoop rest ("" :: seen) + 1 := by
        simp only [quotaCountLoop]
        rw [hcond]
        simp [htok]
      have hfa : (a :: rest).filter (fun x => serverToken x == "") =
          a :: rest.filter (fun x => serverToken x == "") := by
        rw [List.filter_cons]
        simp [htok]
      have hfm : ((a :: rest).map serverToken).filter (fun t => !(t == "")) =
          (rest.map serverToken).filter (fun t => !(t == "")) := by
        rw [List.map_cons, List.filter_cons]
        simp [htok]
      rw [key, ih ("" :: seen), hfa, hfm]
      have hnm : ("" : String) ∉
          ((rest.map serverToken).filter (fun t => !(t == ""))).toFinset := by
        simp
      rw [List.toFinset_cons, Finset.sdiff_insert,
        Finset.erase_eq_of_not_mem (fun hmem => hnm (Finset.mem_sdiff.mp hmem).1)]
      simp only [List.length_cons]
      omega
    · have hb : (serverToken a == "") = false := by
        simp [htok]
      have hbne : (serverToken a != "") = true := by
        simp [htok]
      have hfa : (a :: rest).filter (fun x => serverToken x == "") =
          rest.filter (fun x => serverToken x == "") := by
        rw [List.filter_cons]
        simp [hb]
      have hfm : ((a :: rest).map serverToken).filter (fun t => !(t == "")) =
          serverToken a :: (rest.map serverToken).filter (fun t => !(t == "")) := by
        rw [List.map_cons, List.filter_cons]
        simp [hb]
      by_cases hseen : serverToken a ∈ seen
      · have hc : seen.contains (serverToken a) = true := List.elem_iff.mpr hseen
        have hcond : ((serverToken a == "") ||
            ((serverToken a != "") && !(seen.contains (serverToken a)))) = false := by
          rw [hb, hbne, hc]
          rfl
        have key : quotaCountLoop (a :: rest) seen = quotaCountLoop rest seen := by
          simp only [quotaCountLoop]
          rw [hcond]
          simp
        rw [key, ih seen, hfa, hfm]
        rw [List.toFinset_cons, Finset.insert_sdiff_of_mem _
          (List.mem_toFinset.mpr hseen)]
      · have hc : seen.contains (serverToken a) = false := by
          rcases h : seen.contains (serverToken a) with _ | _
          · rfl
          · exact absurd (List.elem_iff.mp h) hseen
        have hcond : ((serverToken a == "") ||
            ((serverToken a != "") && !(seen.contains (serverToken a)))) = true := by
          rw [hb, hbne, hc]
          rfl
        have key : quotaCountLoop (a :: rest) seen =
            quotaCountLoop rest (serverToken a :: seen) + 1 := by
          simp only [quotaCountLoop]
          rw [hcond]
          simp
        rw [key, ih (serverToken a :: seen), hfa, hfm]
        rw [List.toFinset_cons, List.toFinset_cons]
        have hins : insert (serverToken a)
              ((rest.map serverToken).filter (fun t => !(t == ""))).toFinset \
              seen.toFinset =
            insert (serverToken a)
              (((rest.map serverToken).filter (fun t => !(t == ""))).toFinset \
                seen.toFinset) :=
          Finset.insert_sdiff_of_not_mem _
            (fun hmem => hseen (List.mem_toFinset.mp hmem))
        have hsd : ((rest.map serverToken).filter (fun t => !(t == ""))).toFinset \
              insert (serverToken a) seen.toFinset =
            (((rest.map serverToken).filter (fun t => !(t == ""))).toFinset \
              seen.toFinset).erase (serverToken a) :=
          Finset.sdiff_insert _ _ _
        rw [hins, hsd]
        by_cases hx : serverToken a ∈
            ((rest.map serverToken).filter (fun t => !(t == ""))).toFinset \
              seen.toFinset
        · rw [Finset.insert_eq_self.mpr hx]
          have := Finset.card_erase_add_one hx
          omega
        · rw [Finset.card_insert_of_not_mem hx, Finset.erase_eq_of_not_mem hx]
          omega

theorem pyCountLoop_eq (anns : List PyAnn) :
    ∀ seen : List MetaValue,
      pyCountLoop anns seen =
        (anns.filter (fun a => (pyTokenOf a).isNone)).length +
          ((anns.filterMap pyTokenOf).toFinset \ seen.toFinset).card := by
  induction anns with
  | nil => intro seen; simp [pyCountLoop]
  | cons a rest ih =>
    intro seen
    rcases htok : pyTokenOf a with _ | tok
    · have key : pyCountLoop (a :: rest) seen = pyCountLoop rest seen + 1 := by
        simp [pyCountLoop, htok]
      rw [key, ih seen]
      rw [List.filter_cons, List.filterMap_cons, htok]
      simp only [Option.isNone_none, if_true, List.length_cons]
      omega
    · have hfa : (a :: rest).filter (fun x => (pyTokenOf x).isNone) =
          rest.filter (fun x => (pyTokenOf x).isNone) := by
        rw [List.filter_cons]
        simp [htok]
      have hfm : (a :: rest).filterMap pyTokenOf =
          tok :: rest.filterMap pyTokenOf := by
        rw [List.filterMap_cons, htok]
      by_cases hseen : tok ∈ seen
      · have hc : seen.contains tok = true := List.elem_iff.mpr hseen
        have key : pyCountLoop (a :: rest) seen = pyCountLoop rest seen := by
          simp only [pyCountLoop]
          rw [htok]
          dsimp only
          rw [hc]
          simp
        rw [key, ih seen, hfa, hfm]
        rw [List.toFinset_cons, Finset.insert_sdiff_of_mem _
          (List.mem_toFinset.mpr hseen)]
      · have hc : seen.contains tok = false := by
          rcases h : seen.contains tok with _ | _
          · rfl
          · exact absurd (List.elem_iff.mp h) hseen
        have key : pyCountLoop (a :: rest) seen =
            pyCountLoop rest (tok :: seen) + 1 := by
          simp only [pyCountLoop]
          rw [htok]
          dsimp only
          rw [hc]
          simp
        rw [key, ih (tok :: seen), hfa, hfm]
        rw [List.toFinset_cons, List.toFinset_cons]
        have hins : insert tok (rest.filterMap pyTokenOf).toFinset \ seen.toFinset =
            insert tok ((rest.filterMap pyTokenOf).toFinset \ seen.toFinset) :=
          Finset.insert_sdiff_of_not_mem _
            (fun hmem => hseen (List.mem_toFinset.mp hmem))
        have hsd : (rest.filterMap pyTokenOf).toFinset \ insert tok seen.toFinset =
            ((rest.filterMap pyTokenOf).toFinset \ seen.toFinset).erase tok :=
          Finset.sdiff_insert _ _ _
        rw [hins, hsd]
        by_cases hx : tok ∈ (rest.filterMap pyTokenOf).toFinset \ seen.toFinset
        · rw [Finset.insert_eq_self.mpr hx]
          have := Finset.card_erase_add_one hx
          omega
        · rw [Finset.card_insert_of_not_mem hx, Finset.erase_eq_of_not_mem hx]
          omega

/-- C4: the deduplicated quota count equals the number of announcements with
no dedup token plus the number of distinct tokens among the rest, in both
implementations ("no token" meaning an empty `serverToken` in the Go core —
see C10 — and an absent metadata key in the legacy implementation), and the
spec's example (tokens `a`, `a`, none) counts 2. -/
theorem c4_dedup_count_characterization (anns : List Announcement)
    (panns : List PyAnn) :
    quotaCount anns =
      (anns.filter (fun a => serverToken a == "")).length +
        ((anns.map serverToken).filter (fun t => !(t == ""))).toFinset.card ∧
    pyCount panns =
      (panns.filter (fun a => (pyTokenOf a).isNone)).length +
        (panns.filterMap pyTokenOf).toFinset.card ∧
    quotaCount [tokA1, tokA2, noTokA3] = 2 ∧
    pyCount [tokP1, tokP2, noTokP3] = 2 := by
  refine ⟨?_, ?_, rfl, rfl⟩
  · rw [quotaCount, quotaCountLoop_eq]
    simp
  · rw [pyCount, pyCountLoop_eq]
    simp

/-- C10: an announcement whose metadata holds the dedup-token key with a
non-string value has `serverToken` equal to the empty string, and therefore
always contributes exactly 1 to the deduplicated count wherever it appears in
the list — it never merges with any other announcement. -/
theorem c10_nonstring_token_counts_individually (l1 l2 : List Announcement)
    (a : Announcement)
    (h : a.metadata.lookup tokenkey = some MetaValue.nonString) :
    serverToken a = "" ∧
    quotaCount (l1 ++ a :: l2) = quotaCount (l1 ++ l2) + 1 := by
  have hst : serverToken a = "" := by
    unfold serverToken
    rw [h]
  refine ⟨hst, ?_⟩
  rw [quotaCount, quotaCount, quotaCountLoop_eq, quotaCountLoop_eq]
  have hfa : (a :: l2).filter (fun x => serverToken x == "") =
      a :: l2.filter (fun x => serverToken x == "") := by
    rw [List.filter_cons]
    simp [hst]
  have hfm : ((a :: l2).map serverToken).filter (fun t => !(t == "")) =
      (l2.map serverToken).filter (fun t => !(t == "")) := by
    rw [List.map_cons, List.filter_cons, hst]
    simp
  rw [List.filter_append, List.filter_append, List.map_append, List.map_append,
    List.filter_append, List.filter_append, hfa, hfm]
  simp only [List.length_append, List.length_cons]
  omega

/-- Witness for C10: a non-string-token announcement inserted between two
announcements sharing token `a` adds exactly 1 to the count. -/
theorem c10_nonstring_token_witness :
    serverToken nonStrA = "" ∧
    quotaCount ([tokA1] ++ nonStrA :: [tokA2]) =
      quotaCount ([tokA1] ++ [tokA2]) + 1 :=
  c10_nonstring_token_counts_individually [tokA1] [tokA2] nonStrA rfl

theorem map_keep_of_no_downgrade (fresh : List PyAnn) :
    ∀ l : List PyResult, (∀ x ∈ l, needsDowngrade fresh x = false) →
      l.map (fun r => if needsDowngrade fresh r then dgResult r else r) = l ∧
      l.filter (needsDowngrade fresh) = [] := by
  intro l
  induction l with
  | nil => intro _; exact ⟨rfl, rfl⟩
  | cons x xs ihx =>
    intro h
    have hx := h x (List.mem_cons_self x xs)
    have hxs := ihx (fun y hy => h y (List.mem_cons_of_mem _ hy))
    rw [List.map_cons, List.filter_cons]
    simp [hx, hxs.1, hxs.2]

/-- On a worst-first sorted result list with codes at most 2, the downgrade
loop downgrades exactly the critical results whose announcement is absent
from the fresh fetch, and counts them. -/
theorem downgradePass_eq (fresh : List PyAnn) :
    ∀ results : List PyResult,
      List.Pairwise (fun a b => b.code ≤ a.code) results →
      (∀ r ∈ results, r.code ≤ 2) →
      downgradePass fresh results =
        (results.map (fun r => if needsDowngrade fresh r then dgResult r else r),
         (results.filter (needsDowngrade fresh)).length) := by
  intro results
  induction results with
  | nil => intro _ _; rfl
  | cons r rest ih =>
    intro hsort hle
    have hsort' : List.Pairwise (fun a b => b.code ≤ a.code) rest :=
      (List.pairwise_cons.mp hsort).2
    have hrel : ∀ x ∈ rest, x.code ≤ r.code := (List.pairwise_cons.mp hsort).1
    have hle' : ∀ x ∈ rest, x.code ≤ 2 :=
      fun x hx => hle x (List.mem_cons_of_mem _ hx)
    by_cases hcode : r.code = 2
    · have hbne : (r.code != 2) = false := by simp [hcode]
      rcases hann : r.announcement with _ | a
      · have hnd : needsDowngrade fresh r = false := by
          simp only [needsDowngrade, hann]
          simp
        simp only [downgradePass]
        rw [hbne, hann]
        rw [ih hsort' hle']
        rw [List.map_cons, List.filter_cons, hnd]
        simp
      · by_cases hm : a ∈ fresh
        · have hmem : fresh.contains a = true := List.elem_iff.mpr hm
          have hnd : needsDowngrade fresh r = false := by
            simp only [needsDowngrade, hann]
            rw [hmem]
            simp
          simp only [downgradePass]
          rw [hbne, hann]
          rw [ih hsort' hle']
          rw [List.map_cons, List.filter_cons, hnd]
          simp [hm]
        · have hmem' : fresh.contains a = false := by
            rcases hq : fresh.contains a with _ | _
            · rfl
            · exact absurd (List.elem_iff.mp hq) hm
          have hnd : needsDowngrade fresh r = true := by
            simp only [needsDowngrade, hann, hmem']
            rw [hcode]
            rfl
          simp only [downgradePass]
          rw [hbne, hann]
          rw [ih hsort' hle']
          rw [List.map_cons, List.filter_cons, hnd]
          simp [hm, dgResult, hann]
    · have hbne : (r.code != 2) = true := by simp [hcode]
      have hall : ∀ x ∈ (r :: rest), needsDowngrade fresh x = false := by
        intro x hx
        rcases List.mem_cons.mp hx with rfl | hx'
        · simp [needsDowngrade, hcode]
        · have h1 : x.code ≤ r.code := hrel x hx'
          have h2 : r.code ≤ 2 := hle r (List.mem_cons_self r rest)
          have : ¬x.code = 2 := by omega
          simp [needsDowngrade, this]
      have hmk := map_keep_of_no_downgrade fresh (r :: rest) hall
      simp only [downgradePass]
      rw [hbne]
      rw [hmk.1, hmk.2]
      simp

theorem headCode_insertSorted (r : PyResult) (l : List PyResult) :
    headCode (insertSorted r l) = max r.code (headCode l) := by
  cases l with
  | nil => simp [insertSorted, headCode]
  | cons x xs =>
    by_cases h : keyLt x r
    · have hc : x.code ≤ r.code := by
        rcases h with h | ⟨h, _⟩
        · omega
        · omega
      rw [insertSorted, if_pos h]
      simp only [headCode]
      omega
    · have hc : r.code ≤ x.code := by
        by_contra hcon
        exact h (Or.inl (by omega))
      rw [insertSorted, if_neg h]
      simp only [headCode]
      omega

theorem headCode_sortResults (rs : List PyResult) :
    headCode (sortResults rs) = maxCode rs := by
  induction rs with
  | nil => rfl
  | cons r rest ih =>
    rw [show sortResults (r :: rest) = insertSorted r (sortResults rest) from rfl,
      headCode_insertSorted, ih]
    rfl

theorem maxCode_append (l1 l2 : List PyResult) :
    maxCode (l1 ++ l2) = max (maxCode l1) (maxCode l2) := by
  induction l1 with
  | nil => simp [maxCode]
  | cons x xs ih =>
    rw [List.cons_append,
      show maxCode (x :: (xs ++ l2)) = max x.code (maxCode (xs ++ l2)) from rfl,
      ih, show maxCode (x :: xs) = max x.code (maxCode xs) from rfl]
    omega

theorem maxCode_le (l : List PyResult) (c : Nat)
    (h : ∀ r ∈ l, r.code ≤ c) : maxCode l ≤ c := by
  induction l with
  | nil => simp [maxCode]
  | cons x xs ih =>
    have h1 := h x (List.mem_cons_self x xs)
    have h2 := ih (fun y hy => h y (List.mem_cons_of_mem _ hy))
    rw [show maxCode (x :: xs) = max x.code (maxCode xs) from rfl]
    omega

/-- C1: when reconciliation runs (aggregate severity CRIT, probing enabled),
every CRIT outcome tied to an announcement absent (by identity) from the
service-filtered fresh fetch is downgraded to code 1 (WARN) with the
annotation appended to its message; the downgrade counter counts exactly
those outcomes (so it is positive here); and if that outcome was the sole
CRIT, the worst code of the reconciled result list — the final aggregate
severity — is 1 (WARN). -/
theorem c1_reconciliation_downgrade
    (cfg : PyConfig) (backend2 : Option String) (state2 : List PyAnn)
    (fresh : List PyAnn)
    (hfresh : fresh = state2.filter (fun a => a.serviceType == cfg.service))
    (results : List PyResult)
    (hsort : List.Pairwise (fun a b => b.code ≤ a.code) results)
    (hle : ∀ r ∈ results, r.code ≤ 2)
    (i : Nat) (hi : i < results.length)
    (hcrit : (results.get ⟨i, hi⟩).code = 2)
    (a : PyAnn) (ha : (results.get ⟨i, hi⟩).announcement = some a)
    (habsent : fresh.contains a = false) :
    (downgradePass fresh results).1[i]? =
      some { results.get ⟨i, hi⟩ with
             code := 1,
             message := (results.get ⟨i, hi⟩).message ++ "\n(downgraded)" } ∧
    (downgradePass fresh results).2 =
      (results.filter (needsDowngrade fresh)).length ∧
    0 < (downgradePass fresh results).2 ∧
    ((results.filter (fun r => r.code == 2)).length = 1 →
      headCode (reconcile cfg (Except.ok (backend2, state2)) results) = 1) := by
  have hchar := downgradePass_eq fresh results hsort hle
  have hgeq : results.get ⟨i, hi⟩ = results[i] := List.get_eq_getElem results ⟨i, hi⟩
  have hcritEl : results[i].code = 2 := by rw [← hgeq]; exact hcrit
  have haEl : results[i].announcement = some a := by rw [← hgeq]; exact ha
  have hgetmem : results[i] ∈ results := by
    rw [← hgeq]
    exact results.get_mem i hi
  have hnd : needsDowngrade fresh results[i] = true := by
    simp only [needsDowngrade, haEl, habsent]
    rw [hcritEl]
    rfl
  have hgetel : results[i]? = some results[i] := List.getElem?_eq_getElem hi
  have hpos : 0 < (results.filter (needsDowngrade fresh)).length := by
    have hmem : results[i] ∈ results.filter (needsDowngrade fresh) :=
      List.mem_filter.mpr ⟨hgetmem, hnd⟩
    exact List.length_pos.mpr (List.ne_nil_of_mem hmem)
  refine ⟨?_, ?_, ?_, ?_⟩
  · rw [hchar]
    dsimp only
    rw [List.getElem?_map, hgetel]
    simp [hgeq, hnd, dgResult]
  · rw [hchar]
  · rw [hchar]
    exact hpos
  · intro hsole
    simp only [reconcile]
    rw [← hfresh, hchar]
    dsimp only
    rw [if_pos hpos]
    rw [headCode_sortResults, maxCode_append]
    have hsum : maxCode [mkPyResult 1 ("results")
        (downgradeMsg (results.filter (needsDowngrade fresh)).length backend2)
        none] = 1 := rfl
    rw [hsum]
    have hmax : maxCode (results.map
        (fun r => if needsDowngrade fresh r then dgResult r else r)) ≤ 1 := by
      apply maxCode_le
      intro r hr
      rcases List.mem_map.mp hr with ⟨x, hx, rfl⟩
      by_cases hnx : needsDowngrade fresh x = true
      · simp [hnx, dgResult]
      · have hx2 : x.code ≤ 2 := hle x hx
        rw [if_neg (by simp [hnx])]
        by_contra hgt
        push_neg at hgt
        have hxc2 : x.code = 2 := by omega
        have hxf : x ∈ results.filter (fun r => r.code == 2) :=
          List.mem_filter.mpr ⟨hx, by simp [hxc2]⟩
        have hgf : results[i] ∈ results.filter (fun r => r.code == 2) :=
          List.mem_filter.mpr ⟨hgetmem, by simp [hcritEl]⟩
        rcases List.length_eq_one.mp hsole with ⟨y, hy⟩
        rw [hy] at hxf hgf
        have hxy := List.mem_singleton.mp hxf
        have hgy := List.mem_singleton.mp hgf
        rw [hxy, ← hgy] at hnx
        exact hnx hnd
    omega

/-- Witness for C1: one critical health result tied to an announcement the
fresh (empty) fetch no longer lists, next to an ok quota result. -/
theorem c1_reconciliation_witness :
    (downgradePass [] [resCritW, resOkW]).1[0]? =
      some { resCritW with
             code := 1, message := resCritW.message ++ "\n(downgraded)" } ∧
    (downgradePass [] [resCritW, resOkW]).2 =
      ([resCritW, resOkW].filter (needsDowngrade [])).length ∧
    0 < (downgradePass [] [resCritW, resOkW]).2 ∧
    headCode (reconcile cfgW (Except.ok (none, [])) [resCritW, resOkW]) = 1 := by
  have h := c1_reconciliation_downgrade cfgW none [] [] rfl [resCritW, resOkW]
    (by decide) (by decide) 0 (by decide) rfl pyAnnW rfl rfl
  exact ⟨h.1, h.2.1, h.2.2.1, h.2.2.2 (by decide)⟩

end OtplCheck
